import Mathlib

/-!
Verification of `zerver/lib/error_notify.py`: error-report formatting and
dispatch to administrator email and an internal chat stream.

The Python module is shallowly embedded below.  A report is an association
list from string keys to dynamic values; the `defaultdict(lambda: None, ...)`
wrapper used by the notify functions is reflected in `dget` (subscript and
`.get` access, absent keys read as `None`), while interpolation through
`str.format(**report)` is reflected in `fmt`, which fails with a `KeyError`
for absent keys, because `**`-unpacking a defaultdict does not invoke its
default factory.  Fallible formatting is modelled in `Except String`; the
delivery calls (`mail_admins`, `internal_send_stream_message`) are modelled
as an emitted list of `Send` actions, recording the subject, the body and
(for email) the `fail_silently` flag.  Values stored inside nested report
dictionaries (`deployment_data`, `more_info`) are modelled by their string
rendering, which is how the module consumes them.  The external redaction
helper `zerver.filters.clean_data_from_query_parameters` is an imported
collaborator, so the formatters are parametrised by a function
`clean : String → String`.
-/

namespace ErrorNotify

/-- Dynamic values stored in a report mapping: the Python `None`, strings,
booleans, and flat dictionaries whose values are kept in rendered form. -/
inductive Value where
  | vnone : Value
  | vstr : String → Value
  | vbool : Bool → Value
  | vdict : List (String × String) → Value
  deriving DecidableEq, Repr

/-- Python `str()` applied to a report value. -/
def Value.toStr : Value → String
  | Value.vnone => "None"
  | Value.vstr s => s
  | Value.vbool b => if b then "True" else "False"
  | Value.vdict l =>
      "\x7b" ++ String.intercalate ", "
        (l.map (fun p => "\x27" ++ p.1 ++ "\x27: \x27" ++ p.2 ++ "\x27")) ++ "\x7d"

/-- Python truthiness of a report value. -/
def Value.truthy : Value → Bool
  | Value.vnone => false
  | Value.vstr s => !s.isEmpty
  | Value.vbool b => b
  | Value.vdict l => !l.isEmpty

/-- A report: the mapping of error context fields passed into the
formatting functions. -/
abbrev Report := List (String × Value)

/-- Association-list lookup of a report key. -/
def Report.lookup : Report → String → Option Value
  | [], _ => none
  | (k, v) :: rest, key => if k = key then some v else Report.lookup rest key

/-- Python dictionary assignment `report[k] = v`: replace in place or append. -/
def Report.set : Report → String → Value → Report
  | [], k, v => [(k, v)]
  | (k0, v0) :: rest, k, v =>
      if k0 = k then (k0, v) :: rest else (k0, v0) :: Report.set rest k v

/-- Subscript access on the `defaultdict(lambda: None, report)` wrapper, and
also `report.get(k)`: an absent key is read as `None`. -/
def dget (r : Report) (k : String) : Value :=
  (Report.lookup r k).getD Value.vnone

/-- Interpolation of key `k` through `"...{k}...".format(**report)`: the
`**`-unpacking materialises only the present keys, so an absent key raises
`KeyError` even when the report is a defaultdict. -/
def fmt (r : Report) (k : String) : Except String String :=
  match Report.lookup r k with
  | some v => Except.ok v.toStr
  | none => Except.error ("KeyError: " ++ k)

/-- A delivery action performed by the module: `mail_admins(subject, body,
fail_silently)` or `internal_send_stream_message(..., topic, body)`. -/
inductive Send where
  | mailAdmins : String → String → Bool → Send
  | streamMessage : String → String → Send
  deriving DecidableEq, Repr

/-- An HTTP response produced by `do_report_error`. -/
inductive Response where
  | jsonSuccess : Response
  | jsonError : String → Response
  deriving DecidableEq, Repr

/-- Escape CR and LF characters, as a single character pass.  The source
computes `email_subject.replace('\n', '\\n').replace('\r', '\\r')`; since
both patterns are single characters and neither replacement contains `LF`
or `CR`, the two sequential replaces are exactly this per-character map. -/
def escapeSubjectChar (c : Char) : List Char :=
  if c = '\n' then ['\\', 'n']
  else if c = '\r' then ['\\', 'r']
  else [c]

/-- `format_email_subject`: escape CR and LF characters of the subject. -/
def format_email_subject (s : String) : String :=
  String.mk (s.data.flatMap escapeSubjectChar)

/-- `logger_repr`: `"Logger {logger_name}, from module {log_module} line
{log_lineno}:".format(**report)`. -/
def logger_repr (r : Report) : Except String String := do
  let ln ← fmt r "logger_name"
  let lm ← fmt r "log_module"
  let ll ← fmt r "log_lineno"
  pure ("Logger " ++ ln ++ ", from module " ++ lm ++ " line " ++ ll ++ ":")

/-- `user_info_str`: named user when both `user_full_name` and `user_email`
are truthy, anonymous otherwise, followed by the deployment suffix. -/
def user_info_str (r : Report) : Except String String := do
  let userInfo ←
    if (dget r "user_full_name").truthy && (dget r "user_email").truthy then do
      let n ← fmt r "user_full_name"
      let e ← fmt r "user_email"
      pure (n ++ " (" ++ e ++ ")")
    else
      pure "Anonymous user (not logged in)"
  let d ← fmt r "deployment"
  pure (userInfo ++ " on " ++ d ++ " deployment")

/-- `deployment_repr`: iterate `report['deployment_data'].items()`; on a
non-dictionary value (including the `None` default) `.items()` raises
`AttributeError`. -/
def deployment_repr (r : Report) : Except String String :=
  match dget r "deployment_data" with
  | Value.vdict l =>
      Except.ok (List.foldl (fun acc p => acc ++ "- " ++ p.1 ++ ": " ++ p.2 ++ "\n")
        "Deployed code:\n" l)
  | _ => Except.error "AttributeError: items"

/-- Lines of the optional browser more-info section, one
`"\n  {key}: {value}"` per entry. -/
def moreInfoLines (l : List (String × String)) : String :=
  List.foldl (fun acc p => acc ++ "\n  " ++ p.1 ++ ": " ++ p.2) "" l

/-- The optional more-info block of the browser email body: skipped when
`report['more_info'] is None`, iterated with `.items()` when present (a
non-dictionary value raises `AttributeError`). -/
def moreInfoSection : Value → Except String String
  | Value.vnone => Except.ok ""
  | Value.vdict l => Except.ok ("\nAdditional information:" ++ moreInfoLines l)
  | _ => Except.error "AttributeError: items"

/-- Subject and body computed by `email_browser_error` before delivery.  The
body template interpolates through `format(**report)` in template order,
then the more-info section, then the log section. -/
def browserEmailParts (r : Report) : Except String (String × String) := do
  let ui ← user_info_str r
  let ufn ← fmt r "user_full_name"
  let ue ← fmt r "user_email"
  let dep ← fmt r "deployment"
  let msg ← fmt r "message"
  let st ← fmt r "stacktrace"
  let ip ← fmt r "ip_address"
  let ua ← fmt r "user_agent"
  let hrf ← fmt r "href"
  let sp ← fmt r "server_path"
  let ver ← fmt r "version"
  let core :=
    "User: " ++ ufn ++ " <" ++ ue ++ "> on " ++ dep ++ "\n\nMessage:\n" ++ msg ++
    "\n\nStacktrace:\n" ++ st ++ "\n\nIP address: " ++ ip ++ "\nUser agent: " ++ ua ++
    "\nhref: " ++ hrf ++ "\nServer path: " ++ sp ++ "\nDeployed version: " ++ ver ++ "\n"
  let ms ← moreInfoSection (dget r "more_info")
  let lg ← fmt r "log"
  pure ("Browser error for " ++ ui, core ++ ms ++ "\n\nLog:\n" ++ lg)

/-- `email_browser_error`: format, then `mail_admins(email_subject, body)`
with the default `fail_silently=False` and no subject escaping. -/
def email_browser_error (r : Report) : Except String (List Send) :=
  Except.map (fun p => [Send.mailAdmins p.1 p.2 false]) (browserEmailParts r)

/-- Subject and body computed by `zulip_browser_error` before delivery. -/
def zulipBrowserParts (r : Report) : Except String (String × String) := do
  let ue ← fmt r "user_email"
  let ui ← user_info_str r
  let msg ← fmt r "message"
  pure ("JS error: " ++ ue, "User: " ++ ui ++ "\n" ++ "Message: " ++ msg ++ "\n")

/-- `zulip_browser_error`: format, then send to the errors stream with the
subject passed through `format_email_subject`. -/
def zulip_browser_error (r : Report) : Except String (List Send) :=
  Except.map (fun p => [Send.streamMessage (format_email_subject p.1) p.2])
    (zulipBrowserParts r)

/-- `notify_browser_error`: wrap the report in a `None`-defaulting copy,
send to the errors stream when `settings.ERROR_BOT` is set, then email. -/
def notify_browser_error (errorBot : Bool) (r : Report) :
    Except String (List Send) := do
  let zs ← if errorBot then zulip_browser_error r else pure []
  let es ← email_browser_error r
  pure (zs ++ es)

/-- The fields iterated by the request-info loop of the server formatters. -/
def requestFields : List String := ["REMOTE_ADDR", "QUERY_STRING", "SERVER_NAME"]

/-- Python `str.lower()`, as a character-wise map (the looped field names
are plain ASCII). -/
def lowerString (s : String) : String :=
  String.mk (s.data.map Char.toLower)

/-- One line of the request-info loop: `val = report.get(field.lower())`,
redacted through the external helper for `QUERY_STRING`, then rendered as
`- {field}: "{val}"`. -/
def requestLine (clean : String → String) (r : Report) (field : String) : String :=
  let raw := dget r (lowerString field)
  let valStr := if field = "QUERY_STRING" then clean raw.toStr else raw.toStr
  "- " ++ field ++ ": \"" ++ valStr ++ "\"\n"

/-- Request-info block of `zulip_server_error`: fenced block with path,
method/data and the three looped fields when `report['has_request']` is
truthy, a fixed placeholder otherwise. -/
def zulipRequestRepr (clean : String → String) (r : Report) :
    Except String String :=
  if (dget r "has_request").truthy then do
    let p ← fmt r "path"
    let m ← fmt r "method"
    let d ← fmt r "data"
    pure (List.foldl (fun acc f => acc ++ requestLine clean r f)
      ("Request info:\n~~~~\n- path: " ++ p ++ "\n- " ++ m ++ ": " ++ d ++ "\n")
      requestFields ++ "~~~~")
  else
    pure "Request info: none"

/-- Body assembly of `zulip_server_error` from its formatted components. -/
def zulipServerMessage (loggerStr ui stack dep rr : String) : String :=
  loggerStr ++ "\nError generated by " ++ ui ++ "\n\n~~~~ pytb\n" ++ stack ++
  "\n\n~~~~\n" ++ dep ++ "\n" ++ rr

/-- Subject and body computed by `zulip_server_error` before delivery. -/
def zulipServerParts (clean : String → String) (r : Report) :
    Except String (String × String) := do
  let node ← fmt r "node"
  let msg ← fmt r "message"
  let ls ← logger_repr r
  let ui ← user_info_str r
  let dep ← deployment_repr r
  let rr ← zulipRequestRepr clean r
  pure (node ++ ": " ++ msg,
    zulipServerMessage ls ui (dget r "stack_trace").toStr dep rr)

/-- `zulip_server_error`: format, then send to the errors stream with the
subject passed through `format_email_subject`. -/
def zulip_server_error (clean : String → String) (r : Report) :
    Except String (List Send) :=
  Except.map (fun p => [Send.streamMessage (format_email_subject p.1) p.2])
    (zulipServerParts clean r)

/-- Request-info block of `email_server_error`: unfenced, and the
placeholder keeps a trailing newline. -/
def emailRequestRepr (clean : String → String) (r : Report) :
    Except String String :=
  if (dget r "has_request").truthy then do
    let p ← fmt r "path"
    let m ← fmt r "method"
    let d ← fmt r "data"
    pure (List.foldl (fun acc f => acc ++ requestLine clean r f)
      ("Request info:\n- path: " ++ p ++ "\n- " ++ m ++ ": " ++ d ++ "\n")
      requestFields)
  else
    pure "Request info: none\n"

/-- Body assembly of `email_server_error` from its formatted components. -/
def emailServerMessage (loggerStr ui stack dep rr : String) : String :=
  loggerStr ++ "\nError generated by " ++ ui ++ "\n\n" ++ stack ++ "\n\n" ++
  dep ++ "\n\n" ++ rr

/-- Subject and body computed by `email_server_error` before delivery. -/
def emailServerParts (clean : String → String) (r : Report) :
    Except String (String × String) := do
  let node ← fmt r "node"
  let msg ← fmt r "message"
  let ls ← logger_repr r
  let ui ← user_info_str r
  let dep ← deployment_repr r
  let rr ← emailRequestRepr clean r
  pure (node ++ ": " ++ msg,
    emailServerMessage ls ui (dget r "stack_trace").toStr dep rr)

/-- `email_server_error`: format, then `mail_admins(format_email_subject(
email_subject), message, fail_silently=True)`. -/
def email_server_error (clean : String → String) (r : Report) :
    Except String (List Send) :=
  Except.map (fun p => [Send.mailAdmins (format_email_subject p.1) p.2 true])
    (emailServerParts clean r)

/-- `notify_server_error`: wrap the report in a `None`-defaulting copy,
email first, then send to the errors stream when `settings.ERROR_BOT` is
set and `skip_error_zulip` is false. -/
def notify_server_error (errorBot : Bool) (clean : String → String)
    (skipErrorZulip : Bool) (r : Report) : Except String (List Send) := do
  let es ← email_server_error clean r
  let zs ← if errorBot && !skipErrorZulip then zulip_server_error clean r else pure []
  pure (es ++ zs)

/-- `do_report_error`: store the deployment name into the report, then route
on the type string; the first component is the mapping as the caller sees it
afterwards, the second the response together with the emitted sends. -/
def do_report_error (errorBot : Bool) (clean : String → String)
    (deploymentName : String) (ty : String) (r : Report) :
    Report × Except String (Response × List Send) :=
  let r2 := Report.set r "deployment" (Value.vstr deploymentName)
  if ty = "browser" then
    (r2, Except.map (fun s => (Response.jsonSuccess, s))
      (notify_browser_error errorBot r2))
  else if ty = "server" then
    (r2, Except.map (fun s => (Response.jsonSuccess, s))
      (notify_server_error errorBot clean false r2))
  else
    (r2, Except.ok (Response.jsonError "Invalid type parameter", []))

/-! Helper lemmas for computing with the `Except` monad and with report
updates. -/

@[simp]
theorem except_bind_ok {α β : Type} (a : α) (f : α → Except String β) :
    (Except.ok a >>= f : Except String β) = f a := rfl

@[simp]
theorem except_bind_error {α β : Type} (e : String) (f : α → Except String β) :
    ((Except.error e : Except String α) >>= f) = Except.error e := rfl

@[simp]
theorem except_map_ok {α β : Type} (f : α → β) (a : α) :
    Except.map f (Except.ok a : Except String α) = Except.ok (f a) := rfl

@[simp]
theorem except_map_error {α β : Type} (f : α → β) (e : String) :
    Except.map f (Except.error e : Except String α) = Except.error e := rfl

@[simp]
theorem except_pure_eq {α : Type} (a : α) :
    (pure a : Except String α) = Except.ok a := rfl

theorem lookup_set_self (r : Report) (k : String) (v : Value) :
    Report.lookup (Report.set r k v) k = some v := by
  induction r with
  | nil => simp [Report.set, Report.lookup]
  | cons p rest ih =>
    obtain ⟨k0, v0⟩ := p
    by_cases h : k0 = k
    · simp [Report.set, Report.lookup, h]
    · simp [Report.set, Report.lookup, h, ih]

theorem lookup_set_other (r : Report) (k k2 : String) (v : Value) (h : k2 ≠ k) :
    Report.lookup (Report.set r k v) k2 = Report.lookup r k2 := by
  induction r with
  | nil =>
    simp [Report.set, Report.lookup, if_neg (Ne.symm h)]
  | cons p rest ih =>
    obtain ⟨k0, v0⟩ := p
    by_cases hk : k0 = k
    · subst hk
      simp [Report.set, Report.lookup, if_neg (Ne.symm h)]
    · simp [Report.set, Report.lookup, hk, ih]

/-- A key is present when lookup succeeds; then `fmt` renders it. -/
theorem fmt_of_lookup (r : Report) (k : String) (v : Value)
    (h : Report.lookup r k = some v) : fmt r k = Except.ok v.toStr := by
  simp [fmt, h]

theorem fmt_of_lookup_none (r : Report) (k : String)
    (h : Report.lookup r k = none) : fmt r k = Except.error ("KeyError: " ++ k) := by
  simp [fmt, h]

theorem dget_of_lookup (r : Report) (k : String) (v : Value)
    (h : Report.lookup r k = some v) : dget r k = v := by
  simp [dget, h]

theorem dget_of_lookup_none (r : Report) (k : String)
    (h : Report.lookup r k = none) : dget r k = Value.vnone := by
  simp [dget, h]

/-! Concrete reports used to witness the theorems below. -/

/-- A fully populated browser report. -/
def sampleBrowserReport : Report :=
  [("user_full_name", Value.vstr "Jane Roe"),
   ("user_email", Value.vstr "jane@example.com"),
   ("deployment", Value.vstr "staging"),
   ("message", Value.vstr "boom"),
   ("stacktrace", Value.vstr "tb"),
   ("ip_address", Value.vstr "10.0.0.1"),
   ("user_agent", Value.vstr "UA"),
   ("href", Value.vstr "https://example.com/x"),
   ("server_path", Value.vstr "/json"),
   ("version", Value.vstr "1.0"),
   ("log", Value.vstr "log line")]

/-- A fully populated server report with request context. -/
def sampleServerReport : Report :=
  [("node", Value.vstr "host1"),
   ("message", Value.vstr "err"),
   ("logger_name", Value.vstr "zerver"),
   ("log_module", Value.vstr "views"),
   ("log_lineno", Value.vstr "42"),
   ("user_full_name", Value.vstr "Ann"),
   ("user_email", Value.vstr "ann@example.com"),
   ("deployment", Value.vstr "prod"),
   ("deployment_data", Value.vdict [("git", "abc123")]),
   ("has_request", Value.vbool true),
   ("path", Value.vstr "/json/messages"),
   ("method", Value.vstr "GET"),
   ("data", Value.vstr "None"),
   ("remote_addr", Value.vstr "1.2.3.4"),
   ("query_string", Value.vstr "api_key=secret"),
   ("server_name", Value.vstr "zulip.example.com"),
   ("stack_trace", Value.vstr "Traceback: boom")]

/-- A browser report whose deployment field carries a line feed. -/
def newlineBrowserReport : Report :=
  [("user_full_name", Value.vstr "Jane Roe"),
   ("user_email", Value.vstr "jane@example.com"),
   ("deployment", Value.vstr "staging\nX-Injected: 1"),
   ("message", Value.vstr "boom"),
   ("stacktrace", Value.vstr "tb"),
   ("ip_address", Value.vstr "10.0.0.1"),
   ("user_agent", Value.vstr "UA"),
   ("href", Value.vstr "https://example.com/x"),
   ("server_path", Value.vstr "/json"),
   ("version", Value.vstr "1.0"),
   ("log", Value.vstr "log line")]

/-- A report carrying a full name but no user email. -/
def namedNoEmailReport : Report :=
  [("user_full_name", Value.vstr "Bob"),
   ("deployment", Value.vstr "prod")]

/-- When a key is truthy under the defaultdict view it is present, so
format interpolation renders exactly the defaulted value. -/
theorem fmt_eq_dget_of_truthy (r : Report) (k : String)
    (h : (dget r k).truthy = true) : fmt r k = Except.ok (dget r k).toStr := by
  cases hl : Report.lookup r k with
  | none =>
    rw [dget_of_lookup_none r k hl] at h
    simp [Value.truthy] at h
  | some v =>
    simp [fmt, hl, dget_of_lookup r k v hl]

/-- C3: `do_report_error` routes on the type parameter: `browser` reports go
to `notify_browser_error` and yield `json_success`, `server` reports go to
`notify_server_error` and yield `json_success`, and any other type string
yields `json_error("Invalid type parameter")` with nothing formatted or
sent. -/
theorem C3_do_report_error_routing :
    (∀ (errorBot : Bool) (clean : String → String) (dn : String) (r : Report),
      (do_report_error errorBot clean dn "browser" r).2 =
        Except.map (fun s => (Response.jsonSuccess, s))
          (notify_browser_error errorBot
            (Report.set r "deployment" (Value.vstr dn)))) ∧
    (∀ (errorBot : Bool) (clean : String → String) (dn : String) (r : Report),
      (do_report_error errorBot clean dn "server" r).2 =
        Except.map (fun s => (Response.jsonSuccess, s))
          (notify_server_error errorBot clean false
            (Report.set r "deployment" (Value.vstr dn)))) ∧
    (∀ (errorBot : Bool) (clean : String → String) (dn ty : String) (r : Report),
      ty ≠ "browser" → ty ≠ "server" →
      (do_report_error errorBot clean dn ty r).2 =
        Except.ok (Response.jsonError "Invalid type parameter", [])) := by
  refine ⟨?_, ?_, ?_⟩ <;> intros <;> simp [do_report_error, *]

/-- Witness for C3 at a concrete invalid type string. -/
theorem C3_do_report_error_routing_witness :
    (do_report_error false (fun s => s) "prod" "bogus" sampleBrowserReport).2 =
      Except.ok (Response.jsonError "Invalid type parameter", []) :=
  C3_do_report_error_routing.2.2 false (fun s => s) "prod" "bogus"
    sampleBrowserReport (by decide) (by decide)

/-- C8: formatting is deterministic given the results of the external
redaction helper: two extensionally equal redaction functions yield
identical subjects, bodies, sends and responses everywhere. -/
theorem C8_deterministic_modulo_redaction :
    ∀ (clean1 clean2 : String → String), (∀ s, clean1 s = clean2 s) →
    ∀ (errorBot skip : Bool) (dn ty : String) (r : Report),
      zulip_server_error clean1 r = zulip_server_error clean2 r ∧
      email_server_error clean1 r = email_server_error clean2 r ∧
      notify_server_error errorBot clean1 skip r =
        notify_server_error errorBot clean2 skip r ∧
      do_report_error errorBot clean1 dn ty r =
        do_report_error errorBot clean2 dn ty r := by
  intro c1 c2 h errorBot skip dn ty r
  have hc : c1 = c2 := funext h
  subst hc
  exact ⟨rfl, rfl, rfl, rfl⟩

/-- Witness for C8 at two definitionally different but extensionally equal
redaction functions. -/
theorem C8_deterministic_modulo_redaction_witness :
    zulip_server_error (fun s => String.mk s.data) sampleServerReport =
      zulip_server_error (fun s => s) sampleServerReport :=
  (C8_deterministic_modulo_redaction (fun s => String.mk s.data) (fun s => s)
    (fun _ => rfl) false false "prod" "server" sampleServerReport).1

/-- C9: `do_report_error` updates the caller-visible mapping at exactly the
`deployment` key, setting it to the given deployment name, and leaves every
other key unchanged. -/
theorem C9_do_report_error_frame :
    ∀ (errorBot : Bool) (clean : String → String) (dn ty : String) (r : Report),
      Report.lookup (do_report_error errorBot clean dn ty r).1 "deployment" =
        some (Value.vstr dn) ∧
      ∀ k, k ≠ "deployment" →
        Report.lookup (do_report_error errorBot clean dn ty r).1 k =
          Report.lookup r k := by
  intro errorBot clean dn ty r
  have hfst : (do_report_error errorBot clean dn ty r).1 =
      Report.set r "deployment" (Value.vstr dn) := by
    unfold do_report_error
    by_cases h1 : ty = "browser" <;> by_cases h2 : ty = "server" <;> simp [h1, h2]
  rw [hfst]
  exact ⟨lookup_set_self r _ _, fun k hk => lookup_set_other r _ k _ hk⟩

/-- Witness for C9 at a concrete dispatch, checking the overwritten
deployment key and an untouched key. -/
theorem C9_do_report_error_frame_witness :
    Report.lookup
      (do_report_error false (fun s => s) "dname" "browser" sampleBrowserReport).1
      "deployment" = some (Value.vstr "dname") ∧
    Report.lookup
      (do_report_error false (fun s => s) "dname" "browser" sampleBrowserReport).1
      "message" = Report.lookup sampleBrowserReport "message" :=
  ⟨(C9_do_report_error_frame false (fun s => s) "dname" "browser"
      sampleBrowserReport).1,
   (C9_do_report_error_frame false (fun s => s) "dname" "browser"
      sampleBrowserReport).2 "message" (by decide)⟩

/-- C10: `user_info_str` renders the named form exactly when both
`user_full_name` and `user_email` are truthy and the anonymous form
otherwise; in particular a report lacking either field is rendered
anonymous. -/
theorem C10_user_info_str_spec :
    ∀ (r : Report) (d : Value), Report.lookup r "deployment" = some d →
      user_info_str r = Except.ok
        ((if (dget r "user_full_name").truthy && (dget r "user_email").truthy
          then Value.toStr (dget r "user_full_name") ++ " (" ++
               Value.toStr (dget r "user_email") ++ ")"
          else "Anonymous user (not logged in)") ++
         " on " ++ Value.toStr d ++ " deployment") ∧
      ((Report.lookup r "user_full_name" = none ∨
        Report.lookup r "user_email" = none) →
        user_info_str r = Except.ok
          ("Anonymous user (not logged in) on " ++ Value.toStr d ++
           " deployment")) := by
  intro r d hd
  constructor
  · by_cases hc : ((dget r "user_full_name").truthy &&
        (dget r "user_email").truthy) = true
    · have h1 : (dget r "user_full_name").truthy = true :=
        (Bool.and_eq_true _ _).mp hc |>.1
      have h2 : (dget r "user_email").truthy = true :=
        (Bool.and_eq_true _ _).mp hc |>.2
      simp [user_info_str, hc, fmt_eq_dget_of_truthy _ _ h1,
        fmt_eq_dget_of_truthy _ _ h2, fmt_of_lookup r _ d hd]
    · simp [user_info_str, hc, fmt_of_lookup r _ d hd]
  · intro hor
    have hcf : ((dget r "user_full_name").truthy &&
        (dget r "user_email").truthy) = false := by
      rcases hor with h | h
      · rw [dget_of_lookup_none r _ h]
        simp [Value.truthy]
      · rw [dget_of_lookup_none r _ h]
        simp [Value.truthy]
    simp [user_info_str, hcf, fmt_of_lookup r _ d hd]

/-- Witness for C10 at a report carrying a name but no email. -/
theorem C10_user_info_str_spec_witness :
    user_info_str namedNoEmailReport =
      Except.ok ("Anonymous user (not logged in) on prod deployment") :=
  (C10_user_info_str_spec namedNoEmailReport (Value.vstr "prod") (by decide)).2
    (Or.inr (by decide))

/-- C2 counterexample: `email_browser_error` hands its subject to
`mail_admins` without `format_email_subject`, so a line feed in the
deployment field reaches the delivery backend unescaped. -/
theorem C2_counterexample :
    ∃ subject body, email_browser_error newlineBrowserReport =
      Except.ok [Send.mailAdmins subject body false] ∧ '\n' ∈ subject.data := by
  refine ⟨_, _, rfl, ?_⟩
  decide

/-- C4 counterexample: the `mail_admins` call of `email_browser_error`
passes `fail_silently=False` (the Django default), so delivery failures on
this email path are not suppressed. -/
theorem C4_counterexample :
    ∃ subject body, email_browser_error sampleBrowserReport =
      Except.ok [Send.mailAdmins subject body false] :=
  ⟨_, _, rfl⟩

/-- C5 counterexample: dispatching the empty report through
`notify_browser_error` fails with a missing-key error, because
`str.format(**report)` does not consult the defaultdict factory for the
absent `deployment` key. -/
theorem C5_counterexample :
    notify_browser_error false [] = Except.error ("KeyError: " ++ "deployment") :=
  rfl

/-- Characters emitted by the subject escape are never CR or LF. -/
theorem escapeSubjectChar_no_crlf (a c : Char) (h : c ∈ escapeSubjectChar a) :
    c ≠ '\n' ∧ c ≠ '\r' := by
  unfold escapeSubjectChar at h
  by_cases h1 : a = '\n'
  · simp [h1] at h
    rcases h with h | h <;> subst h <;> exact ⟨by decide, by decide⟩
  · by_cases h2 : a = '\r'
    · simp [h1, h2] at h
      rcases h with h | h <;> subst h <;> exact ⟨by decide, by decide⟩
    · simp [h1, h2] at h
      subst h
      exact ⟨h1, h2⟩

/-- Every successful `email_server_error` run emits exactly one
`mail_admins` call, subject passed through `format_email_subject` and
`fail_silently=True`. -/
theorem email_server_error_shape (clean : String → String) (r : Report)
    (sends : List Send) (h : email_server_error clean r = Except.ok sends) :
    ∃ raw body, sends = [Send.mailAdmins (format_email_subject raw) body true] := by
  unfold email_server_error at h
  cases hp : emailServerParts clean r with
  | error e => rw [hp] at h; simp at h
  | ok p =>
    rw [hp] at h
    simp at h
    exact ⟨p.1, p.2, h.symm⟩

/-- Every successful `zulip_server_error` run emits exactly one stream
message whose topic went through `format_email_subject`. -/
theorem zulip_server_error_shape (clean : String → String) (r : Report)
    (sends : List Send) (h : zulip_server_error clean r = Except.ok sends) :
    ∃ raw body, sends = [Send.streamMessage (format_email_subject raw) body] := by
  unfold zulip_server_error at h
  cases hp : zulipServerParts clean r with
  | error e => rw [hp] at h; simp at h
  | ok p =>
    rw [hp] at h
    simp at h
    exact ⟨p.1, p.2, h.symm⟩

/-- Every successful `zulip_browser_error` run emits exactly one stream
message whose topic went through `format_email_subject`. -/
theorem zulip_browser_error_shape (r : Report) (sends : List Send)
    (h : zulip_browser_error r = Except.ok sends) :
    ∃ raw body, sends = [Send.streamMessage (format_email_subject raw) body] := by
  unfold zulip_browser_error at h
  cases hp : zulipBrowserParts r with
  | error e => rw [hp] at h; simp at h
  | ok p =>
    rw [hp] at h
    simp at h
    exact ⟨p.1, p.2, h.symm⟩

/-- Every successful `email_browser_error` run emits exactly one
`mail_admins` call with the raw subject and `fail_silently=False`. -/
theorem email_browser_error_shape (r : Report) (sends : List Send)
    (h : email_browser_error r = Except.ok sends) :
    ∃ subject body, sends = [Send.mailAdmins subject body false] := by
  unfold email_browser_error at h
  cases hp : browserEmailParts r with
  | error e => rw [hp] at h; simp at h
  | ok p =>
    rw [hp] at h
    simp at h
    exact ⟨p.1, p.2, h.symm⟩

/-- C2 (amended): the subjects of `zulip_browser_error`,
`zulip_server_error` and `email_server_error` are passed through
`format_email_subject`, whose output never contains a literal CR or LF;
`email_browser_error` is the exception and hands its subject over
unescaped. -/
theorem C2_amended_subject_escaping :
    (∀ s, '\n' ∉ (format_email_subject s).data ∧
          '\r' ∉ (format_email_subject s).data) ∧
    (∀ (clean : String → String) (r : Report) (sends : List Send),
      email_server_error clean r = Except.ok sends →
      ∃ raw body, sends = [Send.mailAdmins (format_email_subject raw) body true]) ∧
    (∀ (r : Report) (sends : List Send),
      zulip_browser_error r = Except.ok sends →
      ∃ raw body, sends = [Send.streamMessage (format_email_subject raw) body]) ∧
    (∀ (clean : String → String) (r : Report) (sends : List Send),
      zulip_server_error clean r = Except.ok sends →
      ∃ raw body, sends = [Send.streamMessage (format_email_subject raw) body]) := by
  refine ⟨?_, email_server_error_shape, zulip_browser_error_shape,
    zulip_server_error_shape⟩
  intro s
  constructor
  · intro hmem
    rw [show (format_email_subject s).data = s.data.flatMap escapeSubjectChar
      from rfl] at hmem
    rw [List.mem_flatMap] at hmem
    obtain ⟨a, _, hc⟩ := hmem
    exact (escapeSubjectChar_no_crlf a _ hc).1 rfl
  · intro hmem
    rw [show (format_email_subject s).data = s.data.flatMap escapeSubjectChar
      from rfl] at hmem
    rw [List.mem_flatMap] at hmem
    obtain ⟨a, _, hc⟩ := hmem
    exact (escapeSubjectChar_no_crlf a _ hc).2 rfl

/-- Witness for C2 (amended) on a subject holding both CR and LF and a
concrete server email run. -/
theorem C2_amended_subject_escaping_witness :
    ('\n' ∉ (format_email_subject "a\nb\rc").data ∧
     '\r' ∉ (format_email_subject "a\nb\rc").data) ∧
    (∃ sends, email_server_error (fun _ => "REDACTED") sampleServerReport =
      Except.ok sends ∧
      ∃ raw body, sends = [Send.mailAdmins (format_email_subject raw) body true]) :=
  ⟨C2_amended_subject_escaping.1 "a\nb\rc",
   ⟨_, rfl, C2_amended_subject_escaping.2.1 (fun _ => "REDACTED")
      sampleServerReport _ rfl⟩⟩

/-- C4 (amended): the server email path suppresses delivery failures
(`fail_silently=True`), while the browser email path does not (Django
default `fail_silently=False`). -/
theorem C4_amended_fail_silently :
    (∀ (clean : String → String) (r : Report) (sends : List Send),
      email_server_error clean r = Except.ok sends →
      ∀ s b fs, Send.mailAdmins s b fs ∈ sends → fs = true) ∧
    (∀ (r : Report) (sends : List Send),
      email_browser_error r = Except.ok sends →
      ∀ s b fs, Send.mailAdmins s b fs ∈ sends → fs = false) := by
  constructor
  · intro clean r sends h s b fs hmem
    obtain ⟨raw, body, hs⟩ := email_server_error_shape clean r sends h
    subst hs
    simp at hmem
    exact hmem.2.2
  · intro r sends h s b fs hmem
    obtain ⟨subject, body, hs⟩ := email_browser_error_shape r sends h
    subst hs
    simp at hmem
    exact hmem.2.2

/-- Witness for C4 (amended) on concrete server and browser email runs. -/
theorem C4_amended_fail_silently_witness :
    (∃ sends, email_server_error (fun _ => "REDACTED") sampleServerReport =
      Except.ok sends ∧ ∀ s b fs, Send.mailAdmins s b fs ∈ sends → fs = true) ∧
    (∃ sends, email_browser_error sampleBrowserReport = Except.ok sends ∧
      ∀ s b fs, Send.mailAdmins s b fs ∈ sends → fs = false) :=
  ⟨⟨_, rfl, C4_amended_fail_silently.1 (fun _ => "REDACTED")
      sampleServerReport _ rfl⟩,
   ⟨_, rfl, C4_amended_fail_silently.2 sampleBrowserReport _ rfl⟩⟩

/-- C5 (amended): keys read through subscripting or `.get` on the
defaultdict copy are seen as the `None` sentinel when absent, and the
formatters treat them as absent fields; keys interpolated through
`str.format(**report)` instead raise `KeyError` when absent. -/
theorem C5_amended_default_semantics :
    (∀ (r : Report) (k : String), Report.lookup r k = none →
      dget r k = Value.vnone ∧
      fmt r k = Except.error ("KeyError: " ++ k)) ∧
    (∀ (r : Report), Report.lookup r "more_info" = none →
      moreInfoSection (dget r "more_info") = Except.ok "") ∧
    (∀ (r : Report) (clean : String → String),
      Report.lookup r "has_request" = none →
      zulipRequestRepr clean r = Except.ok "Request info: none" ∧
      emailRequestRepr clean r = Except.ok ("Request info: none" ++ "\n")) := by
  refine ⟨?_, ?_, ?_⟩
  · intro r k h
    exact ⟨dget_of_lookup_none r k h, fmt_of_lookup_none r k h⟩
  · intro r h
    rw [dget_of_lookup_none r _ h]
    rfl
  · intro r clean h
    have hd := dget_of_lookup_none r "has_request" h
    constructor
    · unfold zulipRequestRepr
      rw [hd]
      rfl
    · unfold emailRequestRepr
      rw [hd]
      rfl

/-- Witness for C5 (amended) at a report lacking the optional keys. -/
theorem C5_amended_default_semantics_witness :
    (dget sampleBrowserReport "more_info" = Value.vnone ∧
     fmt sampleBrowserReport "more_info" =
       Except.error ("KeyError: " ++ "more_info")) ∧
    moreInfoSection (dget sampleBrowserReport "more_info") = Except.ok "" ∧
    zulipRequestRepr (fun s => s) sampleBrowserReport =
      Except.ok "Request info: none" :=
  ⟨C5_amended_default_semantics.1 sampleBrowserReport "more_info" (by decide),
   C5_amended_default_semantics.2.1 sampleBrowserReport (by decide),
   (C5_amended_default_semantics.2.2 sampleBrowserReport (fun s => s)
      (by decide)).1⟩

/-! Request-line normal forms for the three looped fields. -/

theorem requestLine_remote (clean : String → String) (r : Report) :
    requestLine clean r "REMOTE_ADDR" =
      "- REMOTE_ADDR: \"" ++ (dget r "remote_addr").toStr ++ "\"\n" := rfl

theorem requestLine_query (clean : String → String) (r : Report) :
    requestLine clean r "QUERY_STRING" =
      "- QUERY_STRING: \"" ++ clean (dget r "query_string").toStr ++ "\"\n" := rfl

theorem requestLine_server (clean : String → String) (r : Report) :
    requestLine clean r "SERVER_NAME" =
      "- SERVER_NAME: \"" ++ (dget r "server_name").toStr ++ "\"\n" := rfl

/-- Both server formatters read the report only through its fields, and the
query string only through the redaction helper: reports agreeing outside
`query_string` and with equal redacted query strings format identically. -/
theorem serverParts_congr (clean : String → String) (r1 r2 : Report)
    (hagree : ∀ k, k ≠ "query_string" → Report.lookup r1 k = Report.lookup r2 k)
    (hclean : clean (dget r1 "query_string").toStr =
      clean (dget r2 "query_string").toStr) :
    zulipServerParts clean r1 = zulipServerParts clean r2 ∧
    emailServerParts clean r1 = emailServerParts clean r2 := by
  have hk : ∀ k, k ≠ "query_string" → fmt r1 k = fmt r2 k := by
    intro k hkn
    unfold fmt
    rw [hagree k hkn]
  have hd : ∀ k, k ≠ "query_string" → dget r1 k = dget r2 k := by
    intro k hkn
    unfold dget
    rw [hagree k hkn]
  have hlg : logger_repr r1 = logger_repr r2 := by
    unfold logger_repr
    rw [hk "logger_name" (by decide), hk "log_module" (by decide),
      hk "log_lineno" (by decide)]
  have hui : user_info_str r1 = user_info_str r2 := by
    unfold user_info_str
    rw [hd "user_full_name" (by decide), hd "user_email" (by decide),
      hk "user_full_name" (by decide), hk "user_email" (by decide),
      hk "deployment" (by decide)]
  have hdep : deployment_repr r1 = deployment_repr r2 := by
    unfold deployment_repr
    rw [hd "deployment_data" (by decide)]
  have hl1 : requestLine clean r1 "REMOTE_ADDR" =
      requestLine clean r2 "REMOTE_ADDR" := by
    rw [requestLine_remote, requestLine_remote, hd "remote_addr" (by decide)]
  have hl2 : requestLine clean r1 "QUERY_STRING" =
      requestLine clean r2 "QUERY_STRING" := by
    rw [requestLine_query, requestLine_query, hclean]
  have hl3 : requestLine clean r1 "SERVER_NAME" =
      requestLine clean r2 "SERVER_NAME" := by
    rw [requestLine_server, requestLine_server, hd "server_name" (by decide)]
  have hzr : zulipRequestRepr clean r1 = zulipRequestRepr clean r2 := by
    unfold zulipRequestRepr
    simp only [requestFields, List.foldl]
    rw [hd "has_request" (by decide), hk "path" (by decide),
      hk "method" (by decide), hk "data" (by decide), hl1, hl2, hl3]
  have her : emailRequestRepr clean r1 = emailRequestRepr clean r2 := by
    unfold emailRequestRepr
    simp only [requestFields, List.foldl]
    rw [hd "has_request" (by decide), hk "path" (by decide),
      hk "method" (by decide), hk "data" (by decide), hl1, hl2, hl3]
  constructor
  · unfold zulipServerParts
    rw [hk "node" (by decide), hk "message" (by decide), hlg, hui, hdep, hzr,
      hd "stack_trace" (by decide)]
  · unfold emailServerParts
    rw [hk "node" (by decide), hk "message" (by decide), hlg, hui, hdep, her,
      hd "stack_trace" (by decide)]

/-- With request context, the fenced request block of `zulip_server_error`
carries the redacted query string between explicit surroundings. -/
theorem zulipRequestRepr_contains (clean : String → String) (r : Report)
    (htr : (dget r "has_request").truthy = true) (p m d : String)
    (hp : fmt r "path" = Except.ok p) (hm : fmt r "method" = Except.ok m)
    (hd : fmt r "data" = Except.ok d) :
    ∃ pre post, zulipRequestRepr clean r = Except.ok
      (pre ++ ("- QUERY_STRING: \"" ++ clean (dget r "query_string").toStr ++
        "\"\n") ++ post) := by
  refine ⟨"Request info:\n~~~~\n- path: " ++ p ++ "\n- " ++ m ++ ": " ++ d ++
    "\n" ++ requestLine clean r "REMOTE_ADDR",
    requestLine clean r "SERVER_NAME" ++ "~~~~", ?_⟩
  unfold zulipRequestRepr
  simp only [requestFields, List.foldl, htr, if_true, hp, hm, hd,
    except_bind_ok, except_pure_eq]
  rw [requestLine_query]
  simp [String.append_assoc]

/-- With request context, the request block of `email_server_error` carries
the redacted query string between explicit surroundings. -/
theorem emailRequestRepr_contains (clean : String → String) (r : Report)
    (htr : (dget r "has_request").truthy = true) (p m d : String)
    (hp : fmt r "path" = Except.ok p) (hm : fmt r "method" = Except.ok m)
    (hd : fmt r "data" = Except.ok d) :
    ∃ pre post, emailRequestRepr clean r = Except.ok
      (pre ++ ("- QUERY_STRING: \"" ++ clean (dget r "query_string").toStr ++
        "\"\n") ++ post) := by
  refine ⟨"Request info:\n- path: " ++ p ++ "\n- " ++ m ++ ": " ++ d ++
    "\n" ++ requestLine clean r "REMOTE_ADDR",
    requestLine clean r "SERVER_NAME", ?_⟩
  unfold emailRequestRepr
  simp only [requestFields, List.foldl, htr, if_true, hp, hm, hd,
    except_bind_ok, except_pure_eq]
  rw [requestLine_query]

/-- Reports that differ only in their raw query string. -/
def qsOnlyA : Report := [("query_string", Value.vstr "token=111")]

/-- Companion report to `qsOnlyA` with a different raw query string. -/
def qsOnlyB : Report := [("query_string", Value.vstr "token=222")]

/-- C1: both server formatters consume `report['query_string']` only
through the redaction helper: (noninterference) two reports agreeing
outside `query_string` whose raw query strings redact to the same string
produce identical messages, so the raw value never leaks; and
(containment) whenever `has_request` is truthy the produced message body
carries the redacted query string in its request-info block. -/
theorem C1_query_string_redaction :
    (∀ (clean : String → String) (r1 r2 : Report),
      (∀ k, k ≠ "query_string" → Report.lookup r1 k = Report.lookup r2 k) →
      clean (dget r1 "query_string").toStr =
        clean (dget r2 "query_string").toStr →
      zulip_server_error clean r1 = zulip_server_error clean r2 ∧
      email_server_error clean r1 = email_server_error clean r2) ∧
    (∀ (clean : String → String) (r : Report),
      (dget r "has_request").truthy = true →
      ∀ node msg ls ui dep p m d,
      fmt r "node" = Except.ok node → fmt r "message" = Except.ok msg →
      logger_repr r = Except.ok ls → user_info_str r = Except.ok ui →
      deployment_repr r = Except.ok dep →
      fmt r "path" = Except.ok p → fmt r "method" = Except.ok m →
      fmt r "data" = Except.ok d →
      ∃ body pre post,
        zulip_server_error clean r = Except.ok
          [Send.streamMessage (format_email_subject (node ++ ": " ++ msg)) body] ∧
        body = pre ++ ("- QUERY_STRING: \"" ++
          clean (dget r "query_string").toStr ++ "\"\n") ++ post) ∧
    (∀ (clean : String → String) (r : Report),
      (dget r "has_request").truthy = true →
      ∀ node msg ls ui dep p m d,
      fmt r "node" = Except.ok node → fmt r "message" = Except.ok msg →
      logger_repr r = Except.ok ls → user_info_str r = Except.ok ui →
      deployment_repr r = Except.ok dep →
      fmt r "path" = Except.ok p → fmt r "method" = Except.ok m →
      fmt r "data" = Except.ok d →
      ∃ body pre post,
        email_server_error clean r = Except.ok
          [Send.mailAdmins (format_email_subject (node ++ ": " ++ msg)) body true] ∧
        body = pre ++ ("- QUERY_STRING: \"" ++
          clean (dget r "query_string").toStr ++ "\"\n") ++ post) := by
  refine ⟨?_, ?_, ?_⟩
  · intro clean r1 r2 hagree hclean
    obtain ⟨hz, he⟩ := serverParts_congr clean r1 r2 hagree hclean
    constructor
    · unfold zulip_server_error
      rw [hz]
    · unfold email_server_error
      rw [he]
  · intro clean r htr node msg ls ui dep p m d hnode hmsg hls hui hdep hp hm hdta
    obtain ⟨pr, po, hrr⟩ := zulipRequestRepr_contains clean r htr p m d hp hm hdta
    refine ⟨zulipServerMessage ls ui (dget r "stack_trace").toStr dep
        (pr ++ ("- QUERY_STRING: \"" ++ clean (dget r "query_string").toStr ++
          "\"\n") ++ po),
      ls ++ "\nError generated by " ++ ui ++ "\n\n~~~~ pytb\n" ++
        (dget r "stack_trace").toStr ++ "\n\n~~~~\n" ++ dep ++ "\n" ++ pr,
      po, ?_, ?_⟩
    · simp [zulip_server_error, zulipServerParts, hnode, hmsg, hls, hui, hdep, hrr]
    · simp [zulipServerMessage, String.append_assoc]
  · intro clean r htr node msg ls ui dep p m d hnode hmsg hls hui hdep hp hm hdta
    obtain ⟨pr, po, hrr⟩ := emailRequestRepr_contains clean r htr p m d hp hm hdta
    refine ⟨emailServerMessage ls ui (dget r "stack_trace").toStr dep
        (pr ++ ("- QUERY_STRING: \"" ++ clean (dget r "query_string").toStr ++
          "\"\n") ++ po),
      ls ++ "\nError generated by " ++ ui ++ "\n\n" ++
        (dget r "stack_trace").toStr ++ "\n\n" ++ dep ++ "\n\n" ++ pr,
      po, ?_, ?_⟩
    · simp [email_server_error, emailServerParts, hnode, hmsg, hls, hui, hdep, hrr]
    · simp [emailServerMessage, String.append_assoc]

/-- Witness for C1: two reports differing only in the raw query string
format identically under a constant redaction, and a concrete request
report carries the redacted query string in both produced bodies. -/
theorem C1_query_string_redaction_witness :
    (zulip_server_error (fun _ => "R") qsOnlyA =
       zulip_server_error (fun _ => "R") qsOnlyB ∧
     email_server_error (fun _ => "R") qsOnlyA =
       email_server_error (fun _ => "R") qsOnlyB) ∧
    (∃ body pre post,
      zulip_server_error (fun _ => "REDACTED") sampleServerReport = Except.ok
        [Send.streamMessage (format_email_subject ("host1" ++ ": " ++ "err")) body] ∧
      body = pre ++ ("- QUERY_STRING: \"" ++
        (fun (_ : String) => "REDACTED") (dget sampleServerReport "query_string").toStr ++
        "\"\n") ++ post) ∧
    (∃ body pre post,
      email_server_error (fun _ => "REDACTED") sampleServerReport = Except.ok
        [Send.mailAdmins (format_email_subject ("host1" ++ ": " ++ "err")) body true] ∧
      body = pre ++ ("- QUERY_STRING: \"" ++
        (fun (_ : String) => "REDACTED") (dget sampleServerReport "query_string").toStr ++
        "\"\n") ++ post) := by
  refine ⟨C1_query_string_redaction.1 (fun _ => "R") qsOnlyA qsOnlyB ?_ rfl,
    C1_query_string_redaction.2.1 (fun _ => "REDACTED") sampleServerReport
      (by decide) "host1" "err" _ _ _ _ _ _ rfl rfl rfl rfl rfl rfl rfl rfl,
    C1_query_string_redaction.2.2 (fun _ => "REDACTED") sampleServerReport
      (by decide) "host1" "err" _ _ _ _ _ _ rfl rfl rfl rfl rfl rfl rfl rfl⟩
  intro k hk
  by_cases h : "query_string" = k
  · exact absurd h.symm hk
  · simp [qsOnlyA, qsOnlyB, Report.lookup, h]

/-- C6: browser dispatch always emails and posts to the errors stream
exactly when the error bot is configured; server dispatch always emails and
posts to the stream exactly when the error bot is configured and
`skip_error_zulip` is false. -/
theorem C6_dispatcher_channels :
    (∀ (errorBot : Bool) (r : Report) (zp ep : String × String),
      zulipBrowserParts r = Except.ok zp →
      browserEmailParts r = Except.ok ep →
      notify_browser_error errorBot r = Except.ok
        ((if errorBot then [Send.streamMessage (format_email_subject zp.1) zp.2]
          else []) ++ [Send.mailAdmins ep.1 ep.2 false])) ∧
    (∀ (errorBot skip : Bool) (clean : String → String) (r : Report)
        (ep zp : String × String),
      emailServerParts clean r = Except.ok ep →
      zulipServerParts clean r = Except.ok zp →
      notify_server_error errorBot clean skip r = Except.ok
        ([Send.mailAdmins (format_email_subject ep.1) ep.2 true] ++
         (if errorBot && !skip
          then [Send.streamMessage (format_email_subject zp.1) zp.2]
          else []))) := by
  constructor
  · intro errorBot r zp ep hz he
    cases errorBot <;>
      simp [notify_browser_error, zulip_browser_error, email_browser_error, hz, he]
  · intro errorBot skip clean r ep zp he hz
    cases errorBot <;> cases skip <;>
      simp [notify_server_error, zulip_server_error, email_server_error, he, hz]

/-- Witness for C6 on concrete browser and server dispatches with the
error bot configured. -/
theorem C6_dispatcher_channels_witness :
    (∃ zp ep, zulipBrowserParts sampleBrowserReport = Except.ok zp ∧
      browserEmailParts sampleBrowserReport = Except.ok ep ∧
      notify_browser_error true sampleBrowserReport = Except.ok
        ([Send.streamMessage (format_email_subject zp.1) zp.2] ++
         [Send.mailAdmins ep.1 ep.2 false])) ∧
    (∃ ep zp, emailServerParts (fun _ => "X") sampleServerReport = Except.ok ep ∧
      zulipServerParts (fun _ => "X") sampleServerReport = Except.ok zp ∧
      notify_server_error true (fun _ => "X") false sampleServerReport = Except.ok
        ([Send.mailAdmins (format_email_subject ep.1) ep.2 true] ++
         [Send.streamMessage (format_email_subject zp.1) zp.2])) := by
  constructor
  · refine ⟨_, _, rfl, rfl, ?_⟩
    have := C6_dispatcher_channels.1 true sampleBrowserReport _ _ rfl rfl
    simpa using this
  · refine ⟨_, _, rfl, rfl, ?_⟩
    have := C6_dispatcher_channels.2 true false (fun _ => "X")
      sampleServerReport _ _ rfl rfl
    simpa using this

/-- A nonempty string prepended to anything stays nonempty. -/
theorem append_ne_empty_left (a b : String) (ha : a ≠ "") : a ++ b ≠ "" := by
  intro he
  apply ha
  have hd := congrArg String.data he
  rw [String.data_append] at hd
  have h2 : a.data = [] := (List.append_eq_nil.mp hd).1
  exact String.ext h2

/-- A browser report carrying a populated `more_info` dictionary. -/
def moreInfoBrowserReport : Report :=
  sampleBrowserReport ++ [("more_info", Value.vdict [("draft", "hello")])]

/-- C7: in the browser email body the more-info section appears exactly
when `more_info` is not the absent sentinel, one indented line per entry,
and the log section always comes last, after it. -/
theorem C7_more_info_and_log_sections :
    ∀ (r : Report) (ui ufn ue dep msg st ip ua hrf sp ver ms lg : String),
      user_info_str r = Except.ok ui →
      fmt r "user_full_name" = Except.ok ufn →
      fmt r "user_email" = Except.ok ue →
      fmt r "deployment" = Except.ok dep →
      fmt r "message" = Except.ok msg →
      fmt r "stacktrace" = Except.ok st →
      fmt r "ip_address" = Except.ok ip →
      fmt r "user_agent" = Except.ok ua →
      fmt r "href" = Except.ok hrf →
      fmt r "server_path" = Except.ok sp →
      fmt r "version" = Except.ok ver →
      moreInfoSection (dget r "more_info") = Except.ok ms →
      fmt r "log" = Except.ok lg →
      (∃ pre, browserEmailParts r = Except.ok
        ("Browser error for " ++ ui, pre ++ ms ++ ("\n\nLog:\n" ++ lg))) ∧
      (ms = "" ↔ dget r "more_info" = Value.vnone) ∧
      (∀ l, dget r "more_info" = Value.vdict l →
        ms = "\nAdditional information:" ++ moreInfoLines l) := by
  intro r ui ufn ue dep msg st ip ua hrf sp ver ms lg
  intro hui h1 h2 h3 h4 h5 h6 h7 h8 h9 h10 hms hlg
  refine ⟨⟨"User: " ++ ufn ++ " <" ++ ue ++ "> on " ++ dep ++ "\n\nMessage:\n" ++
      msg ++ "\n\nStacktrace:\n" ++ st ++ "\n\nIP address: " ++ ip ++
      "\nUser agent: " ++ ua ++ "\nhref: " ++ hrf ++ "\nServer path: " ++ sp ++
      "\nDeployed version: " ++ ver ++ "\n", ?_⟩, ?_, ?_⟩
  · simp [browserEmailParts, hui, h1, h2, h3, h4, h5, h6, h7, h8, h9, h10,
      hms, hlg, String.append_assoc]
  · cases hv : dget r "more_info" with
    | vnone =>
      rw [hv] at hms
      simp [moreInfoSection] at hms
      exact ⟨fun _ => rfl, fun _ => hms.symm⟩
    | vstr s =>
      rw [hv] at hms
      simp [moreInfoSection] at hms
    | vbool b =>
      rw [hv] at hms
      simp [moreInfoSection] at hms
    | vdict l =>
      rw [hv] at hms
      simp [moreInfoSection] at hms
      constructor
      · intro h0
        exfalso
        rw [← hms] at h0
        exact append_ne_empty_left _ _ (by decide) h0
      · intro heq
        exact Value.noConfusion heq
  · intro l hvl
    rw [hvl] at hms
    simp [moreInfoSection] at hms
    exact hms.symm

/-- Witness for C7 at a browser report with a populated more-info
dictionary. -/
theorem C7_more_info_and_log_sections_witness :
    ∃ ui ms lg, user_info_str moreInfoBrowserReport = Except.ok ui ∧
      moreInfoSection (dget moreInfoBrowserReport "more_info") = Except.ok ms ∧
      fmt moreInfoBrowserReport "log" = Except.ok lg ∧
      (∃ pre, browserEmailParts moreInfoBrowserReport = Except.ok
        ("Browser error for " ++ ui, pre ++ ms ++ ("\n\nLog:\n" ++ lg))) ∧
      (ms = "" ↔ dget moreInfoBrowserReport "more_info" = Value.vnone) ∧
      (∀ l, dget moreInfoBrowserReport "more_info" = Value.vdict l →
        ms = "\nAdditional information:" ++ moreInfoLines l) := by
  refine ⟨_, _, _, rfl, rfl, rfl, ?_⟩
  exact C7_more_info_and_log_sections moreInfoBrowserReport _ _ _ _ _ _ _ _ _ _
    _ _ _ rfl rfl rfl rfl rfl rfl rfl rfl rfl rfl rfl rfl rfl

end ErrorNotify
